import Mathlib

/-!
Verification of the FreeRDP redirected file-system ("drive") channel
handler, `channels/drive/client/drive_main.c`, against its natural-language
specification.  The C handlers are shallowly embedded: wire streams are
lists of bytes (Nat values below 256 in practice), the open-file table is an
association list from FileId to file object, and the host file-system calls
(drive_file_new, drive_file_seek, drive_file_read, drive_file_write,
drive_file_free, Stream_EnsureRemainingCapacity, GetDiskFreeSpaceW, ...)
are abstracted by an oracle record giving each call's outcome for the one
IRP being processed.  Null-pointer guards of the C code are outside the
model: every modelled value exists.  Machine integers are Nat with explicit
reduction modulo 256 at each byte written, exactly where the C stream
writers truncate.
-/

namespace Drive

/-! ## Windows error codes (Win32), as used by the source -/

def STATUS_SUCCESS : Nat := 0
def ERROR_ACCESS_DENIED : Nat := 5
def ERROR_SHARING_VIOLATION : Nat := 32
def ERROR_FILE_NOT_FOUND : Nat := 2
def ERROR_BUSY_DRIVE : Nat := 142
def ERROR_INVALID_DRIVE : Nat := 15
def ERROR_NOT_READY : Nat := 21
def ERROR_FILE_EXISTS : Nat := 80
def ERROR_ALREADY_EXISTS : Nat := 183
def ERROR_INVALID_NAME : Nat := 123
def ERROR_INVALID_HANDLE : Nat := 6
def ERROR_NO_MORE_FILES : Nat := 18
def ERROR_DIRECTORY : Nat := 267
def ERROR_PATH_NOT_FOUND : Nat := 3
def ERROR_DIR_NOT_EMPTY : Nat := 145
def ERROR_INVALID_PARAMETER : Nat := 87
def ERROR_INVALID_DATA : Nat := 13
def ERROR_INTERNAL_ERROR : Nat := 1359
def CHANNEL_RC_OK : Nat := 0
def CHANNEL_RC_NO_BUFFER : Nat := 8
def CHANNEL_RC_NO_MEMORY : Nat := 12

/-! ## NT status codes -/

def STATUS_UNSUCCESSFUL : Nat := 0xC0000001
def STATUS_ACCESS_DENIED : Nat := 0xC0000022
def STATUS_NO_SUCH_FILE : Nat := 0xC000000F
def STATUS_DEVICE_BUSY : Nat := 0x80000011
def STATUS_NO_SUCH_DEVICE : Nat := 0xC000000E
def STATUS_OBJECT_NAME_COLLISION : Nat := 0xC0000035
def STATUS_INVALID_HANDLE : Nat := 0xC0000008
def STATUS_NO_MORE_FILES : Nat := 0x80000006
def STATUS_NOT_A_DIRECTORY : Nat := 0xC0000103
def STATUS_OBJECT_PATH_NOT_FOUND : Nat := 0xC000003A
def STATUS_DIRECTORY_NOT_EMPTY : Nat := 0xC0000101
def STATUS_NOT_SUPPORTED : Nat := 0xC00000BB

/-! ## IRP major/minor function codes and Create constants -/

def IRP_MJ_CREATE : Nat := 0x00
def IRP_MJ_CLOSE : Nat := 0x02
def IRP_MJ_READ : Nat := 0x03
def IRP_MJ_WRITE : Nat := 0x04
def IRP_MJ_QUERY_INFORMATION : Nat := 0x05
def IRP_MJ_SET_INFORMATION : Nat := 0x06
def IRP_MJ_QUERY_VOLUME_INFORMATION : Nat := 0x0A
def IRP_MJ_DIRECTORY_CONTROL : Nat := 0x0C
def IRP_MJ_DEVICE_CONTROL : Nat := 0x0E
def IRP_MJ_LOCK_CONTROL : Nat := 0x11
def IRP_MN_QUERY_DIRECTORY : Nat := 0x01
def IRP_MN_NOTIFY_CHANGE_DIRECTORY : Nat := 0x02

def FILE_SUPERSEDE : Nat := 0
def FILE_OPEN : Nat := 1
def FILE_CREATE : Nat := 2
def FILE_OPEN_IF : Nat := 3
def FILE_OVERWRITE : Nat := 4
def FILE_OVERWRITE_IF : Nat := 5
def FILE_SUPERSEDED : Nat := 0
def FILE_OPENED : Nat := 1
def FILE_OVERWRITTEN : Nat := 3

def FileFsVolumeInformation : Nat := 1
def FileFsSizeInformation : Nat := 3
def FileFsDeviceInformation : Nat := 4
def FileFsAttributeInformation : Nat := 5
def FileFsFullSizeInformation : Nat := 7

def FILE_CASE_SENSITIVE_SEARCH : Nat := 1
def FILE_CASE_PRESERVED_NAMES : Nat := 2
def FILE_UNICODE_ON_DISK : Nat := 4
def MAX_PATH : Nat := 260
def FILE_DEVICE_DISK : Nat := 7

/-! ## The host-error to NT-status mapper (drive_main.c, drive_map_windows_err)

The C switch is embedded as a chain of equality tests in the source's case
order; fall-through case labels become consecutive tests with the same
result. -/

def drive_map_windows_err (fs_errno : Nat) : Nat :=
  if fs_errno = STATUS_SUCCESS then STATUS_SUCCESS
  else if fs_errno = ERROR_ACCESS_DENIED then STATUS_ACCESS_DENIED
  else if fs_errno = ERROR_SHARING_VIOLATION then STATUS_ACCESS_DENIED
  else if fs_errno = ERROR_FILE_NOT_FOUND then STATUS_NO_SUCH_FILE
  else if fs_errno = ERROR_BUSY_DRIVE then STATUS_DEVICE_BUSY
  else if fs_errno = ERROR_INVALID_DRIVE then STATUS_NO_SUCH_DEVICE
  else if fs_errno = ERROR_NOT_READY then STATUS_NO_SUCH_DEVICE
  else if fs_errno = ERROR_FILE_EXISTS then STATUS_OBJECT_NAME_COLLISION
  else if fs_errno = ERROR_ALREADY_EXISTS then STATUS_OBJECT_NAME_COLLISION
  else if fs_errno = ERROR_INVALID_NAME then STATUS_NO_SUCH_FILE
  else if fs_errno = ERROR_INVALID_HANDLE then STATUS_INVALID_HANDLE
  else if fs_errno = ERROR_NO_MORE_FILES then STATUS_NO_MORE_FILES
  else if fs_errno = ERROR_DIRECTORY then STATUS_NOT_A_DIRECTORY
  else if fs_errno = ERROR_PATH_NOT_FOUND then STATUS_OBJECT_PATH_NOT_FOUND
  else if fs_errno = ERROR_DIR_NOT_EMPTY then STATUS_DIRECTORY_NOT_EMPTY
  else STATUS_UNSUCCESSFUL

/-- Modelled from the spec: the error-mapping table of spec section 7
("Host condition | NT status"), written in the spec table's row order:
success; access/sharing violation; file not found / invalid name; path not
found; exists on create; directory not empty; not a directory; end of
enumeration; bad handle; device busy; invalid drive or not ready; any
other code. -/
def spec_error_table (code : Nat) : Nat :=
  if code = STATUS_SUCCESS then STATUS_SUCCESS
  else if code = ERROR_ACCESS_DENIED then STATUS_ACCESS_DENIED
  else if code = ERROR_SHARING_VIOLATION then STATUS_ACCESS_DENIED
  else if code = ERROR_FILE_NOT_FOUND then STATUS_NO_SUCH_FILE
  else if code = ERROR_INVALID_NAME then STATUS_NO_SUCH_FILE
  else if code = ERROR_PATH_NOT_FOUND then STATUS_OBJECT_PATH_NOT_FOUND
  else if code = ERROR_FILE_EXISTS then STATUS_OBJECT_NAME_COLLISION
  else if code = ERROR_ALREADY_EXISTS then STATUS_OBJECT_NAME_COLLISION
  else if code = ERROR_DIR_NOT_EMPTY then STATUS_DIRECTORY_NOT_EMPTY
  else if code = ERROR_DIRECTORY then STATUS_NOT_A_DIRECTORY
  else if code = ERROR_NO_MORE_FILES then STATUS_NO_MORE_FILES
  else if code = ERROR_INVALID_HANDLE then STATUS_INVALID_HANDLE
  else if code = ERROR_BUSY_DRIVE then STATUS_DEVICE_BUSY
  else if code = ERROR_INVALID_DRIVE then STATUS_NO_SUCH_DEVICE
  else if code = ERROR_NOT_READY then STATUS_NO_SUCH_DEVICE
  else STATUS_UNSUCCESSFUL

/-- Claim C3: the host-to-NT error mapper agrees with the spec's table on
every input code: success maps to STATUS_SUCCESS, access or sharing
violation to STATUS_ACCESS_DENIED, file not found or invalid name to
STATUS_NO_SUCH_FILE, path not found to STATUS_OBJECT_PATH_NOT_FOUND,
exists-on-create to STATUS_OBJECT_NAME_COLLISION, directory not empty to
STATUS_DIRECTORY_NOT_EMPTY, not a directory to STATUS_NOT_A_DIRECTORY, end
of enumeration to STATUS_NO_MORE_FILES, bad handle to
STATUS_INVALID_HANDLE, busy drive to STATUS_DEVICE_BUSY, invalid drive or
not ready to STATUS_NO_SUCH_DEVICE, and every other code to
STATUS_UNSUCCESSFUL. -/
theorem drive_map_windows_err_matches_spec_table :
    ∀ code : Nat, drive_map_windows_err code = spec_error_table code := by
  intro code
  by_cases h0 : code = STATUS_SUCCESS
  · rw [h0]; decide
  by_cases h1 : code = ERROR_ACCESS_DENIED
  · rw [h1]; decide
  by_cases h2 : code = ERROR_SHARING_VIOLATION
  · rw [h2]; decide
  by_cases h3 : code = ERROR_FILE_NOT_FOUND
  · rw [h3]; decide
  by_cases h4 : code = ERROR_BUSY_DRIVE
  · rw [h4]; decide
  by_cases h5 : code = ERROR_INVALID_DRIVE
  · rw [h5]; decide
  by_cases h6 : code = ERROR_NOT_READY
  · rw [h6]; decide
  by_cases h7 : code = ERROR_FILE_EXISTS
  · rw [h7]; decide
  by_cases h8 : code = ERROR_ALREADY_EXISTS
  · rw [h8]; decide
  by_cases h9 : code = ERROR_INVALID_NAME
  · rw [h9]; decide
  by_cases h10 : code = ERROR_INVALID_HANDLE
  · rw [h10]; decide
  by_cases h11 : code = ERROR_NO_MORE_FILES
  · rw [h11]; decide
  by_cases h12 : code = ERROR_DIRECTORY
  · rw [h12]; decide
  by_cases h13 : code = ERROR_PATH_NOT_FOUND
  · rw [h13]; decide
  by_cases h14 : code = ERROR_DIR_NOT_EMPTY
  · rw [h14]; decide
  simp only [drive_map_windows_err, spec_error_table, if_neg h0, if_neg h1, if_neg h2,
    if_neg h3, if_neg h4, if_neg h5, if_neg h6, if_neg h7, if_neg h8, if_neg h9,
    if_neg h10, if_neg h11, if_neg h12, if_neg h13, if_neg h14]

/-! ## Byte streams

A wire stream is a list of bytes.  `readU32`/`readU64` decode little-endian
integers at the head of a list (the callers of the C stream getters always
check the remaining length first, so the out-of-range default 0 is never
reached under the guards of the handlers).  `putU32`/`putU8`/`putU64`
mirror `Stream_Write_UINT32`/`UINT8`/`UINT64`: they commit the little-endian
bytes of the value reduced to the written width. -/

def byteAt (l : List Nat) (i : Nat) : Nat := l.getD i 0

def readU32 (l : List Nat) : Nat :=
  byteAt l 0 + 256 * byteAt l 1 + 65536 * byteAt l 2 + 16777216 * byteAt l 3

def readU64 (l : List Nat) : Nat :=
  readU32 l + 4294967296 * readU32 (l.drop 4)

def putU8 (v : Nat) : List Nat := [v % 256]

def putU32 (v : Nat) : List Nat :=
  [v % 256, v / 256 % 256, v / 65536 % 256, v / 16777216 % 256]

def putU64 (v : Nat) : List Nat := putU32 (v % 4294967296) ++ putU32 (v / 4294967296)

/-! ## The data model: file objects, the open-file table, IRPs -/

/-- One open file object (drive_file.h DRIVE_FILE), reduced to the fields
the dispatcher itself touches: its table key `id`.  All behaviour of the
underlying host file is abstracted by the oracle. -/
structure DRIVE_FILE where
  id : Nat
deriving DecidableEq, Repr

/-- The open-file table (DRIVE_DEVICE.files, a WinPR wListDictionary):
an association list from FileId key to file object. -/
abbrev FileTable : Type := List (Nat × DRIVE_FILE)

/-- drive_get_file_by_id: ListDictionary_GetItemValue on the table. -/
def drive_get_file_by_id (files : FileTable) (id : Nat) : Option DRIVE_FILE :=
  match List.find? (fun e => e.1 == id) files with
  | some e => some e.2
  | none => none

/-- ListDictionary_Take: remove the entry with the given key (the first
match) from the table. -/
def tableTake (files : FileTable) (id : Nat) : FileTable :=
  List.eraseP (fun e => e.1 == id) files

/-- ListDictionary_Add: the table with the new entry appended. -/
def tableAdd (files : FileTable) (id : Nat) (f : DRIVE_FILE) : FileTable :=
  List.append files [(id, f)]

/-- One I/O request packet as the drive handlers see it (devman has already
parsed the header). -/
structure IRP where
  MajorFunction : Nat
  MinorFunction : Nat
  FileId : Nat
  input : List Nat
deriving DecidableEq, Repr

/-- Outcomes of the host calls made while one IRP is processed.  Each
handler performs at most one call to each host primitive, so one field per
primitive suffices.  `lastError` is what GetLastError returns after the
failing call of the path taken.  `completeRet`/`discardRet` are the values
returned by the transport's callbacks. -/
structure HostOracle where
  fileNewOk : Bool
  addOk : Bool
  seekOk : Bool
  writeOk : Bool
  readOk : Bool
  readBytes : List Nat
  freeOk : Bool
  ensureOk : Bool
  queryInfoOk : Bool
  queryInfoOut : List Nat
  setInfoOk : Bool
  queryDirOk : Bool
  queryDirOut : List Nat
  lastError : Nat
  completeRet : Nat
  discardRet : Nat
  sectorsPerCluster : Nat
  bytesPerSector : Nat
  freeClusters : Nat
  totalClusters : Nat
  creationTimeLow : Nat
  creationTimeHigh : Nat
deriving DecidableEq, Repr

/-- What processing one IRP did: the handler's return code, the final
io_status of the IRP, the bytes committed to the response stream, how often
each transport callback ran, the table afterwards, and whether the host
file read primitive was invoked. -/
structure IrpResult where
  error : Nat
  ioStatus : Nat
  output : List Nat
  completeCalls : Nat
  discardCalls : Nat
  files : FileTable
  readCalled : Bool
deriving DecidableEq, Repr

/-- An early return of a handler before any callback: the IRP is dropped,
nothing was written. -/
def dropIrp (files : FileTable) (err : Nat) (io : Nat) : IrpResult :=
  { error := err, ioStatus := io, output := [], completeCalls := 0,
    discardCalls := 0, files := files, readCalled := false }

/-! ## IRP_MJ_CREATE (drive_process_irp_create) -/

/-- The Information byte of the Create response, as the switch on
CreateDisposition computes it in drive_process_irp_create. -/
def createInformation (disposition : Nat) : Nat :=
  if disposition = FILE_SUPERSEDE ∨ disposition = FILE_OPEN ∨
      disposition = FILE_CREATE ∨ disposition = FILE_OVERWRITE then FILE_SUPERSEDED
  else if disposition = FILE_OPEN_IF then FILE_OPENED
  else if disposition = FILE_OVERWRITE_IF then FILE_OVERWRITTEN
  else 0

/-- Modelled from the spec: "Information is FILE_SUPERSEDED for disposition
in SUPERSEDE, OPEN, CREATE, OVERWRITE; FILE_OPENED for OPEN_IF;
FILE_OVERWRITTEN for OVERWRITE_IF; 0 otherwise" (spec section 4.3.1, also
the wording of claim C4). -/
def spec_create_information (disposition : Nat) : Nat :=
  if disposition = FILE_SUPERSEDE ∨ disposition = FILE_OPEN ∨
      disposition = FILE_CREATE ∨ disposition = FILE_OVERWRITE then FILE_SUPERSEDED
  else if disposition = FILE_OPEN_IF then FILE_OPENED
  else if disposition = FILE_OVERWRITE_IF then FILE_OVERWRITTEN
  else 0

/-- drive_process_irp_create: parse the 32-byte fixed part -- DesiredAccess
at byte offset 0, AllocationSize at 4, FileAttributes at 12, SharedAccess
at 16, CreateDisposition at 20, CreateOptions at 24, PathLength at 28 --
check the path length, allocate the next FileId from the devman sequence
(`seq`), open the host file, insert into the table, compute the
Information byte from CreateDisposition, perform the allocation-size
seek-and-write, emit FileId and Information, complete.  On open failure
emit FileId 0 / Information 0 with the mapped error.  Early returns drop
the IRP without a callback. -/
def drive_process_irp_create (files : FileTable) (seq : Nat) (irp : IRP)
    (o : HostOracle) (io : Nat) : IrpResult :=
  if irp.input.length < 32 then dropIrp files ERROR_INVALID_DATA io
  else
    let allocationSize := readU64 (irp.input.drop 4)
    let CreateDisposition := readU32 (irp.input.drop 20)
    let PathLength := readU32 (irp.input.drop 28)
    if (irp.input.drop 32).length < PathLength then dropIrp files ERROR_INVALID_DATA io
    else
      let FileId := seq
      if o.fileNewOk = false then
        { error := o.completeRet, ioStatus := drive_map_windows_err o.lastError,
          output := putU32 0 ++ putU8 0, completeCalls := 1, discardCalls := 0,
          files := files, readCalled := false }
      else if o.addOk = false then dropIrp files ERROR_INTERNAL_ERROR io
      else
        let files1 := tableAdd files FileId { id := FileId }
        let Information := createInformation CreateDisposition
        if 0 < allocationSize ∧ o.seekOk = false then
          dropIrp files1 ERROR_INTERNAL_ERROR io
        else if 0 < allocationSize ∧ o.writeOk = false then
          dropIrp files1 ERROR_INTERNAL_ERROR io
        else
          { error := o.completeRet, ioStatus := io,
            output := putU32 FileId ++ putU8 Information,
            completeCalls := 1, discardCalls := 0, files := files1,
            readCalled := false }

/-! ## IRP_MJ_CLOSE (drive_process_irp_close) -/

/-- drive_process_irp_close: look the FileId up; unknown id sets
STATUS_UNSUCCESSFUL, a known id is taken out of the table and freed, the
status reflecting the free; either way 5 zero padding bytes are written and
the IRP completed. -/
def drive_process_irp_close (files : FileTable) (irp : IRP) (o : HostOracle)
    (_io : Nat) : IrpResult :=
  match drive_get_file_by_id files irp.FileId with
  | none =>
      { error := o.completeRet, ioStatus := STATUS_UNSUCCESSFUL,
        output := List.replicate 5 0, completeCalls := 1, discardCalls := 0,
        files := files, readCalled := false }
  | some _ =>
      let files1 := tableTake files irp.FileId
      { error := o.completeRet,
        ioStatus := if o.freeOk then STATUS_SUCCESS
          else drive_map_windows_err o.lastError,
        output := List.replicate 5 0, completeCalls := 1, discardCalls := 0,
        files := files1, readCalled := false }

/-! ## IRP_MJ_READ (drive_process_irp_read) -/

/-- drive_process_irp_read: parse Length and Offset; an unknown FileId or a
failed seek zeroes Length and sets the status; grow the output (failure
drops the IRP); a zero Length writes just the zero count; otherwise the
host read fills the buffer and its actual count is written, a failed read
writing a zero count with the mapped status.  Complete in all non-dropped
paths. -/
def drive_process_irp_read (files : FileTable) (irp : IRP) (o : HostOracle)
    (io : Nat) : IrpResult :=
  if irp.input.length < 12 then dropIrp files ERROR_INVALID_DATA io
  else
    let Length := readU32 irp.input
    let ls :=
      match drive_get_file_by_id files irp.FileId with
      | none => (0, STATUS_UNSUCCESSFUL)
      | some _ =>
          if o.seekOk then (Length, io) else (0, drive_map_windows_err o.lastError)
    if o.ensureOk = false then dropIrp files ERROR_INTERNAL_ERROR ls.2
    else if ls.1 = 0 then
      { error := o.completeRet, ioStatus := ls.2, output := putU32 0,
        completeCalls := 1, discardCalls := 0, files := files,
        readCalled := false }
    else if o.readOk = false then
      { error := o.completeRet, ioStatus := drive_map_windows_err o.lastError,
        output := putU32 0, completeCalls := 1, discardCalls := 0,
        files := files, readCalled := true }
    else
      { error := o.completeRet, ioStatus := ls.2,
        output := putU32 o.readBytes.length ++ o.readBytes,
        completeCalls := 1, discardCalls := 0, files := files,
        readCalled := true }

/-! ## IRP_MJ_WRITE (drive_process_irp_write) -/

/-- drive_process_irp_write: parse Length, Offset, skip 20 padding bytes,
check the payload is present (Stream_SafeSeek), then seek and write.  An
unknown FileId, failed seek or failed write zeroes Length with the mapped
status.  The response is the (possibly zeroed) Length and one padding
byte. -/
def drive_process_irp_write (files : FileTable) (irp : IRP) (o : HostOracle)
    (io : Nat) : IrpResult :=
  if irp.input.length < 32 then dropIrp files ERROR_INVALID_DATA io
  else
    let Length := readU32 irp.input
    if (irp.input.drop 32).length < Length then dropIrp files ERROR_INVALID_DATA io
    else
      let ls :=
        match drive_get_file_by_id files irp.FileId with
        | none => (0, STATUS_UNSUCCESSFUL)
        | some _ =>
            if o.seekOk = false then (0, drive_map_windows_err o.lastError)
            else if o.writeOk = false then (0, drive_map_windows_err o.lastError)
            else (Length, io)
      { error := o.completeRet, ioStatus := ls.2,
        output := putU32 ls.1 ++ putU8 0, completeCalls := 1,
        discardCalls := 0, files := files, readCalled := false }

/-! ## IRP_MJ_QUERY_INFORMATION (drive_process_irp_query_information) -/

/-- drive_process_irp_query_information: parse the class; an unknown FileId
sets STATUS_UNSUCCESSFUL, a failing drive_file_query_information the mapped
error, a successful one writes the class body; complete in all non-dropped
paths. -/
def drive_process_irp_query_information (files : FileTable) (irp : IRP)
    (o : HostOracle) (io : Nat) : IrpResult :=
  if irp.input.length < 4 then dropIrp files ERROR_INVALID_DATA io
  else
    let so :=
      match drive_get_file_by_id files irp.FileId with
      | none => (STATUS_UNSUCCESSFUL, ([] : List Nat))
      | some _ =>
          if o.queryInfoOk then (io, o.queryInfoOut)
          else (drive_map_windows_err o.lastError, [])
    { error := o.completeRet, ioStatus := so.1, output := so.2,
      completeCalls := 1, discardCalls := 0, files := files,
      readCalled := false }

/-! ## IRP_MJ_SET_INFORMATION (drive_process_irp_set_information) -/

/-- drive_process_irp_set_information: parse class and Length, skip 24
padding bytes; unknown FileId sets STATUS_UNSUCCESSFUL, a failing
drive_file_set_information the mapped error; the Length is echoed in every
non-dropped path and the IRP completed. -/
def drive_process_irp_set_information (files : FileTable) (irp : IRP)
    (o : HostOracle) (io : Nat) : IrpResult :=
  if irp.input.length < 32 then dropIrp files ERROR_INVALID_DATA io
  else
    let Length := readU32 (irp.input.drop 4)
    let st :=
      match drive_get_file_by_id files irp.FileId with
      | none => STATUS_UNSUCCESSFUL
      | some _ => if o.setInfoOk then io else drive_map_windows_err o.lastError
    { error := o.completeRet, ioStatus := st, output := putU32 Length,
      completeCalls := 1, discardCalls := 0, files := files,
      readCalled := false }

/-! ## IRP_MJ_QUERY_VOLUME_INFORMATION
(drive_process_irp_query_volume_information) -/

/-- The UTF-16LE bytes of the NUL-terminated volume label "FREERDP". -/
def volumeLabelBytes : List Nat :=
  [70, 0, 82, 0, 69, 0, 69, 0, 82, 0, 68, 0, 80, 0, 0, 0]

/-- The UTF-16LE bytes of the NUL-terminated file-system name "FAT32". -/
def diskTypeBytes : List Nat := [70, 0, 65, 0, 84, 0, 51, 0, 50, 0, 0, 0]

/-- drive_process_irp_query_volume_information: parse the class and answer
one of the five supported FsInformationClass layouts from the host
free-space and attribute data; an unknown class writes a zero Length field
with STATUS_UNSUCCESSFUL.  A failed capacity growth drops the IRP after the
Length field was already committed. -/
def drive_process_irp_query_volume_information (files : FileTable) (irp : IRP)
    (o : HostOracle) (io : Nat) : IrpResult :=
  if irp.input.length < 4 then dropIrp files ERROR_INVALID_DATA io
  else
    let cls := readU32 irp.input
    if cls = FileFsVolumeInformation then
      if o.ensureOk = false then
        { error := CHANNEL_RC_NO_MEMORY, ioStatus := io, output := putU32 33,
          completeCalls := 0, discardCalls := 0, files := files,
          readCalled := false }
      else
        { error := o.completeRet, ioStatus := io,
          output := putU32 33 ++ putU32 o.creationTimeLow ++
            putU32 o.creationTimeHigh ++ putU32 (o.freeClusters % 65536) ++
            putU32 16 ++ putU8 0 ++ volumeLabelBytes,
          completeCalls := 1, discardCalls := 0, files := files,
          readCalled := false }
    else if cls = FileFsSizeInformation then
      if o.ensureOk = false then
        { error := CHANNEL_RC_NO_MEMORY, ioStatus := io, output := putU32 24,
          completeCalls := 0, discardCalls := 0, files := files,
          readCalled := false }
      else
        { error := o.completeRet, ioStatus := io,
          output := putU32 24 ++ putU64 o.totalClusters ++
            putU64 o.freeClusters ++ putU32 o.sectorsPerCluster ++
            putU32 o.bytesPerSector,
          completeCalls := 1, discardCalls := 0, files := files,
          readCalled := false }
    else if cls = FileFsAttributeInformation then
      if o.ensureOk = false then
        { error := CHANNEL_RC_NO_MEMORY, ioStatus := io, output := putU32 24,
          completeCalls := 0, discardCalls := 0, files := files,
          readCalled := false }
      else
        { error := o.completeRet, ioStatus := io,
          output := putU32 24 ++
            putU32 (FILE_CASE_SENSITIVE_SEARCH + FILE_CASE_PRESERVED_NAMES +
              FILE_UNICODE_ON_DISK) ++
            putU32 MAX_PATH ++ putU32 12 ++ diskTypeBytes,
          completeCalls := 1, discardCalls := 0, files := files,
          readCalled := false }
    else if cls = FileFsFullSizeInformation then
      if o.ensureOk = false then
        { error := CHANNEL_RC_NO_MEMORY, ioStatus := io, output := putU32 32,
          completeCalls := 0, discardCalls := 0, files := files,
          readCalled := false }
      else
        { error := o.completeRet, ioStatus := io,
          output := putU32 32 ++ putU64 o.totalClusters ++
            putU64 o.freeClusters ++ putU64 o.freeClusters ++
            putU32 o.sectorsPerCluster ++ putU32 o.bytesPerSector,
          completeCalls := 1, discardCalls := 0, files := files,
          readCalled := false }
    else if cls = FileFsDeviceInformation then
      if o.ensureOk = false then
        { error := CHANNEL_RC_NO_MEMORY, ioStatus := io, output := putU32 8,
          completeCalls := 0, discardCalls := 0, files := files,
          readCalled := false }
      else
        { error := o.completeRet, ioStatus := io,
          output := putU32 8 ++ putU32 FILE_DEVICE_DISK ++ putU32 0,
          completeCalls := 1, discardCalls := 0, files := files,
          readCalled := false }
    else
      { error := o.completeRet, ioStatus := STATUS_UNSUCCESSFUL,
        output := putU32 0, completeCalls := 1, discardCalls := 0,
        files := files, readCalled := false }

/-! ## IRP_MJ_LOCK_CONTROL (drive_process_irp_silent_ignore) -/

/-- drive_process_irp_silent_ignore: read the 4-byte class, log it, write a
zero Length field and complete with the status the dispatcher set. -/
def drive_process_irp_silent_ignore (files : FileTable) (irp : IRP)
    (o : HostOracle) (io : Nat) : IrpResult :=
  if irp.input.length < 4 then dropIrp files ERROR_INVALID_DATA io
  else
    { error := o.completeRet, ioStatus := io, output := putU32 0,
      completeCalls := 1, discardCalls := 0, files := files,
      readCalled := false }

/-! ## IRP_MJ_DIRECTORY_CONTROL (query directory, notify change, default) -/

/-- drive_process_irp_query_directory: parse class, InitialQuery and
PathLength (then 23 padding bytes), check the path bytes are present; an
unknown FileId answers a zero Length with STATUS_UNSUCCESSFUL, a failing
drive_file_query_directory the mapped error with nothing further written, a
successful one the selected entry body; complete in all non-dropped
paths. -/
def drive_process_irp_query_directory (files : FileTable) (irp : IRP)
    (o : HostOracle) (io : Nat) : IrpResult :=
  if irp.input.length < 32 then dropIrp files ERROR_INVALID_DATA io
  else
    let PathLength := readU32 (irp.input.drop 5)
    if (irp.input.drop 32).length < PathLength then dropIrp files ERROR_INVALID_DATA io
    else
      let so :=
        match drive_get_file_by_id files irp.FileId with
        | none => (STATUS_UNSUCCESSFUL, putU32 0)
        | some _ =>
            if o.queryDirOk then (io, o.queryDirOut)
            else (drive_map_windows_err o.lastError, [])
      { error := o.completeRet, ioStatus := so.1, output := so.2,
        completeCalls := 1, discardCalls := 0, files := files,
        readCalled := false }

/-- drive_process_irp_directory_control: route on the minor function --
query directory, discard for change notification, and a STATUS_NOT_SUPPORTED
zero-Length completion for every other minor code. -/
def drive_process_irp_directory_control (files : FileTable) (irp : IRP)
    (o : HostOracle) (io : Nat) : IrpResult :=
  if irp.MinorFunction = IRP_MN_QUERY_DIRECTORY then
    drive_process_irp_query_directory files irp o io
  else if irp.MinorFunction = IRP_MN_NOTIFY_CHANGE_DIRECTORY then
    { error := o.discardRet, ioStatus := io, output := [],
      completeCalls := 0, discardCalls := 1, files := files,
      readCalled := false }
  else
    { error := o.completeRet, ioStatus := STATUS_NOT_SUPPORTED,
      output := putU32 0, completeCalls := 1, discardCalls := 0,
      files := files, readCalled := false }

/-! ## IRP_MJ_DEVICE_CONTROL (drive_process_irp_device_control) -/

/-- drive_process_irp_device_control: write a zero OutputBufferLength and
complete. -/
def drive_process_irp_device_control (files : FileTable) (_irp : IRP)
    (o : HostOracle) (io : Nat) : IrpResult :=
  { error := o.completeRet, ioStatus := io, output := putU32 0,
    completeCalls := 1, discardCalls := 0, files := files,
    readCalled := false }

/-! ## The dispatcher (drive_process_irp) -/

/-- drive_process_irp: set io_status to STATUS_SUCCESS, then route on the
major function; an unrecognised major completes the IRP with
STATUS_NOT_SUPPORTED and nothing written. -/
def drive_process_irp (files : FileTable) (seq : Nat) (irp : IRP)
    (o : HostOracle) : IrpResult :=
  if irp.MajorFunction = IRP_MJ_CREATE then
    drive_process_irp_create files seq irp o STATUS_SUCCESS
  else if irp.MajorFunction = IRP_MJ_CLOSE then
    drive_process_irp_close files irp o STATUS_SUCCESS
  else if irp.MajorFunction = IRP_MJ_READ then
    drive_process_irp_read files irp o STATUS_SUCCESS
  else if irp.MajorFunction = IRP_MJ_WRITE then
    drive_process_irp_write files irp o STATUS_SUCCESS
  else if irp.MajorFunction = IRP_MJ_QUERY_INFORMATION then
    drive_process_irp_query_information files irp o STATUS_SUCCESS
  else if irp.MajorFunction = IRP_MJ_SET_INFORMATION then
    drive_process_irp_set_information files irp o STATUS_SUCCESS
  else if irp.MajorFunction = IRP_MJ_QUERY_VOLUME_INFORMATION then
    drive_process_irp_query_volume_information files irp o STATUS_SUCCESS
  else if irp.MajorFunction = IRP_MJ_LOCK_CONTROL then
    drive_process_irp_silent_ignore files irp o STATUS_SUCCESS
  else if irp.MajorFunction = IRP_MJ_DIRECTORY_CONTROL then
    drive_process_irp_directory_control files irp o STATUS_SUCCESS
  else if irp.MajorFunction = IRP_MJ_DEVICE_CONTROL then
    drive_process_irp_device_control files irp o STATUS_SUCCESS
  else
    { error := o.completeRet, ioStatus := STATUS_NOT_SUPPORTED, output := [],
      completeCalls := 1, discardCalls := 0, files := files,
      readCalled := false }

/-! ## The asynchronous worker (drive_thread_func / drive_poll_run)

One loop iteration of the worker thread is driven by what the queue
delivers: a failed MessageQueue_Wait, a wake-up with an empty queue, a
failed MessageQueue_Peek, a message whose wParam is null, the WMQ_QUIT
message, or an IRP whose dispatch through drive_process_irp returns the
recorded error code.  The event list is the sequence the queue produces;
the worker's recursion consumes it.  `dispatched` collects the dispatch
error code of each IRP handed to drive_poll_run, `logs` counts the error
log lines written (MessageQueue_Peek failure, and drive_poll_run's log of
a non-zero dispatch error). -/

inductive QEvent where
  | waitFail
  | emptyWake
  | peekFail
  | nullIrp
  | quit
  | irpMsg (dispatchError : Nat)
deriving DecidableEq, Repr

inductive WorkerOutcome where
  | running (dispatched : List Nat) (logs : Nat)
  | terminated (threadError : Nat) (dispatched : List Nat) (logs : Nat)
deriving DecidableEq, Repr

/-- drive_thread_func's loop over the events the queue delivers, carrying
the IRP dispatch results so far and the log-line count.  A failed Wait
breaks with ERROR_INTERNAL_ERROR; WMQ_QUIT breaks with CHANNEL_RC_OK; a
failed Peek is logged and the loop continues; a dispatched IRP whose error
is non-zero is logged by drive_poll_run and the loop breaks, the thread
error still CHANNEL_RC_OK; an exhausted event list leaves the worker
blocked on the queue. -/
def drive_thread_func : List QEvent → List Nat → Nat → WorkerOutcome
  | [], ds, lg => WorkerOutcome.running ds lg
  | QEvent.waitFail :: _, ds, lg =>
      WorkerOutcome.terminated ERROR_INTERNAL_ERROR ds lg
  | QEvent.emptyWake :: rest, ds, lg => drive_thread_func rest ds lg
  | QEvent.peekFail :: rest, ds, lg => drive_thread_func rest ds (lg + 1)
  | QEvent.nullIrp :: rest, ds, lg => drive_thread_func rest ds lg
  | QEvent.quit :: _, ds, lg => WorkerOutcome.terminated CHANNEL_RC_OK ds lg
  | QEvent.irpMsg e :: rest, ds, lg =>
      if e = 0 then drive_thread_func rest (ds ++ [e]) lg
      else WorkerOutcome.terminated CHANNEL_RC_OK (ds ++ [e]) (lg + 1)

/-- The dispatch error codes of the IRPs a worker run actually handed to
drive_process_irp. -/
def dispatchedOf : WorkerOutcome → List Nat
  | WorkerOutcome.running ds _ => ds
  | WorkerOutcome.terminated _ ds _ => ds

/-! ## Concrete fixtures used by witnesses and counterexamples -/

/-- A host on which every call of the processed IRP succeeds. -/
def okOracle : HostOracle :=
  { fileNewOk := true, addOk := true, seekOk := true, writeOk := true,
    readOk := true, readBytes := [104, 105], freeOk := true, ensureOk := true,
    queryInfoOk := true, queryInfoOut := [], setInfoOk := true,
    queryDirOk := true, queryDirOut := [], lastError := 0, completeRet := 0,
    discardRet := 0, sectorsPerCluster := 8, bytesPerSector := 512,
    freeClusters := 70000, totalClusters := 100000, creationTimeLow := 1,
    creationTimeHigh := 2 }

/-- A Create IRP whose input is empty, so short of the 32-byte fixed
part. -/
def shortCreateIrp : IRP :=
  { MajorFunction := 0, MinorFunction := 0, FileId := 0, input := [] }

/-! ## Claim C1: callback discipline of the dispatcher -/

/-- The callback outcome the dispatcher guarantees: either exactly one of
the Complete and Discard callbacks ran, or neither ran and the dispatcher
returned a non-zero error to its caller (the IRP was dropped without a
response). -/
def cbOK (r : IrpResult) : Prop :=
  r.completeCalls + r.discardCalls = 1 ∨
    (r.completeCalls = 0 ∧ r.discardCalls = 0 ∧ r.error ≠ 0)

theorem cbOK_create (files : FileTable) (seq : Nat) (irp : IRP)
    (o : HostOracle) (io : Nat) :
    cbOK (drive_process_irp_create files seq irp o io) := by
  simp only [drive_process_irp_create, dropIrp, ERROR_INVALID_DATA, ERROR_INTERNAL_ERROR]
  split_ifs <;> simp [cbOK]

theorem cbOK_close (files : FileTable) (irp : IRP) (o : HostOracle)
    (io : Nat) : cbOK (drive_process_irp_close files irp o io) := by
  unfold drive_process_irp_close
  split <;> simp [cbOK]

theorem cbOK_read (files : FileTable) (irp : IRP) (o : HostOracle)
    (io : Nat) : cbOK (drive_process_irp_read files irp o io) := by
  simp only [drive_process_irp_read, dropIrp, ERROR_INVALID_DATA, ERROR_INTERNAL_ERROR]
  split_ifs <;> simp [cbOK]

theorem cbOK_write (files : FileTable) (irp : IRP) (o : HostOracle)
    (io : Nat) : cbOK (drive_process_irp_write files irp o io) := by
  simp only [drive_process_irp_write, dropIrp, ERROR_INVALID_DATA]
  split_ifs <;> simp [cbOK]

theorem cbOK_query_information (files : FileTable) (irp : IRP)
    (o : HostOracle) (io : Nat) :
    cbOK (drive_process_irp_query_information files irp o io) := by
  simp only [drive_process_irp_query_information, dropIrp, ERROR_INVALID_DATA]
  split_ifs <;> simp [cbOK]

theorem cbOK_set_information (files : FileTable) (irp : IRP)
    (o : HostOracle) (io : Nat) :
    cbOK (drive_process_irp_set_information files irp o io) := by
  simp only [drive_process_irp_set_information, dropIrp, ERROR_INVALID_DATA]
  split_ifs <;> simp [cbOK]

theorem cbOK_query_volume (files : FileTable) (irp : IRP) (o : HostOracle)
    (io : Nat) :
    cbOK (drive_process_irp_query_volume_information files irp o io) := by
  simp only [drive_process_irp_query_volume_information, dropIrp, ERROR_INVALID_DATA, CHANNEL_RC_NO_MEMORY]
  split_ifs <;> simp [cbOK]

theorem cbOK_silent_ignore (files : FileTable) (irp : IRP) (o : HostOracle)
    (io : Nat) : cbOK (drive_process_irp_silent_ignore files irp o io) := by
  simp only [drive_process_irp_silent_ignore, dropIrp, ERROR_INVALID_DATA]
  split_ifs <;> simp [cbOK]

theorem cbOK_query_directory (files : FileTable) (irp : IRP)
    (o : HostOracle) (io : Nat) :
    cbOK (drive_process_irp_query_directory files irp o io) := by
  simp only [drive_process_irp_query_directory, dropIrp, ERROR_INVALID_DATA]
  split_ifs <;> simp [cbOK]

theorem cbOK_directory_control (files : FileTable) (irp : IRP)
    (o : HostOracle) (io : Nat) :
    cbOK (drive_process_irp_directory_control files irp o io) := by
  unfold drive_process_irp_directory_control
  split_ifs with h1 h2
  · exact cbOK_query_directory files irp o io
  · simp [cbOK]
  · simp [cbOK]

theorem cbOK_device_control (files : FileTable) (irp : IRP)
    (o : HostOracle) (io : Nat) :
    cbOK (drive_process_irp_device_control files irp o io) := by
  simp [cbOK, drive_process_irp_device_control]

set_option maxHeartbeats 1000000 in
/-- Claim C1, amended: for every IRP the dispatcher processes, at most one
of the Complete and Discard callbacks is invoked, and exactly one is
invoked unless the handler aborts early (failed input-length validation,
failed table insertion, failed allocation-size seek or write, or failed
output-capacity growth), in which case neither callback is invoked and the
dispatcher returns a non-zero error code to its caller, which drops the
IRP without a response. -/
theorem drive_process_irp_callback_discipline (files : FileTable) (seq : Nat)
    (irp : IRP) (o : HostOracle) :
    cbOK (drive_process_irp files seq irp o) := by
  unfold drive_process_irp
  split_ifs
  · exact cbOK_create files seq irp o STATUS_SUCCESS
  · exact cbOK_close files irp o STATUS_SUCCESS
  · exact cbOK_read files irp o STATUS_SUCCESS
  · exact cbOK_write files irp o STATUS_SUCCESS
  · exact cbOK_query_information files irp o STATUS_SUCCESS
  · exact cbOK_set_information files irp o STATUS_SUCCESS
  · exact cbOK_query_volume files irp o STATUS_SUCCESS
  · exact cbOK_silent_ignore files irp o STATUS_SUCCESS
  · exact cbOK_directory_control files irp o STATUS_SUCCESS
  · exact cbOK_device_control files irp o STATUS_SUCCESS
  · simp [cbOK]

/-- Claim C1, counterexample to the claim as stated: a Create IRP whose
input fails length validation is processed by the dispatcher without
either callback being invoked (the C handler returns ERROR_INVALID_DATA
before reaching irp.Complete), so "exactly one of Complete and Discard is
invoked" is false for it. -/
theorem create_short_input_no_callback :
    ¬ ((drive_process_irp [] 1 shortCreateIrp okOracle).completeCalls +
        (drive_process_irp [] 1 shortCreateIrp okOracle).discardCalls = 1) := by
  decide

/-! ## Claim C2: the asynchronous worker's failure handling -/

/-- Claim C2, counterexample to the claim as stated: two IRPs are queued,
the first one's dispatch fails with error 5 (not a queue error) and the
second one's would succeed; if the worker continued to dequeue and dispatch
subsequent IRPs both would be dispatched, but the run dispatches only the
first -- drive_thread_func breaks out of its loop when drive_poll_run
reports a failed IRP. -/
theorem drive_thread_func_stops_after_failed_irp :
    ¬ (dispatchedOf
        (drive_thread_func [QEvent.irpMsg 5, QEvent.irpMsg 0] [] 0) =
      [5, 0]) := by
  decide

/-- Claim C2, amended: in asynchronous mode, a queued IRP whose dispatch
returns a non-zero error code is logged and terminates the worker loop,
with the thread error still CHANNEL_RC_OK (so no device-level error is
recorded for it); a dispatch that returns zero lets the worker continue; a
failed queue Wait terminates the worker with ERROR_INTERNAL_ERROR; a
failed queue Peek is logged and the worker continues. -/
theorem drive_thread_func_failure_handling (rest : List QEvent)
    (ds : List Nat) (lg e : Nat) :
    (e ≠ 0 → drive_thread_func (QEvent.irpMsg e :: rest) ds lg =
        WorkerOutcome.terminated CHANNEL_RC_OK (ds ++ [e]) (lg + 1)) ∧
    drive_thread_func (QEvent.irpMsg 0 :: rest) ds lg =
        drive_thread_func rest (ds ++ [0]) lg ∧
    drive_thread_func (QEvent.waitFail :: rest) ds lg =
        WorkerOutcome.terminated ERROR_INTERNAL_ERROR ds lg ∧
    drive_thread_func (QEvent.peekFail :: rest) ds lg =
        drive_thread_func rest ds (lg + 1) := by
  refine ⟨fun h => ?_, ?_, rfl, rfl⟩
  · simp [drive_thread_func, h]
  · simp [drive_thread_func]

/-- Claim C2, witness: the amended failure handling applied to a single
queued IRP whose dispatch fails with error 5. -/
theorem drive_thread_func_failure_handling_witness :
    drive_thread_func [QEvent.irpMsg 5] [] 0 =
      WorkerOutcome.terminated CHANNEL_RC_OK [5] 1 :=
  (drive_thread_func_failure_handling [] [] 0 5).1 (by decide)

/-! ## Claim C4: the Information byte of a successful Create -/

theorem createInformation_eq_spec (d : Nat) :
    createInformation d = spec_create_information d := rfl

/-- A Create IRP whose 32-byte fixed part is all zero (so CreateDisposition
FILE_SUPERSEDE, AllocationSize 0, PathLength 0). -/
def createIrp32 : IRP :=
  { MajorFunction := 0, MinorFunction := 0, FileId := 0,
    input := List.replicate 32 0 }

/-- Claim C4: for every Create IRP with well-formed input whose open,
table insertion and (when AllocationSize is positive) allocation-size
seek-and-write succeed, the response body is the new FileId followed by
the Information byte of the spec's disposition table: FILE_SUPERSEDED for
FILE_SUPERSEDE, FILE_OPEN, FILE_CREATE and FILE_OVERWRITE; FILE_OPENED for
FILE_OPEN_IF; FILE_OVERWRITTEN for FILE_OVERWRITE_IF; 0 for any other
disposition value. -/
theorem create_success_information_byte (files : FileTable) (seq : Nat)
    (irp : IRP) (o : HostOracle) (io : Nat)
    (hlen : 32 ≤ irp.input.length)
    (hpath : readU32 (irp.input.drop 28) ≤ (irp.input.drop 32).length)
    (hnew : o.fileNewOk = true) (hadd : o.addOk = true)
    (halloc : readU64 (irp.input.drop 4) = 0 ∨
      (o.seekOk = true ∧ o.writeOk = true)) :
    (drive_process_irp_create files seq irp o io).output =
      putU32 seq ++ putU8 (spec_create_information
        (readU32 (irp.input.drop 20))) := by
  simp only [drive_process_irp_create]
  split_ifs with h1 h2 h3 h4 h5 h6
  · omega
  · omega
  · rw [hnew] at h3; exact absurd h3 (by simp)
  · rw [hadd] at h4; exact absurd h4 (by simp)
  · rcases h5 with ⟨h5a, h5b⟩
    rcases halloc with ha | ⟨hs, hw⟩
    · omega
    · rw [hs] at h5b; exact absurd h5b (by simp)
  · rcases h6 with ⟨h6a, h6b⟩
    rcases halloc with ha | ⟨hs, hw⟩
    · omega
    · rw [hw] at h6b; exact absurd h6b (by simp)
  · simp [createInformation_eq_spec]

/-- A well-formed Create whose SharedAccess field (byte offset 16) is 5
and whose CreateDisposition field (byte offset 20) is FILE_OPEN_IF; the
two fields differ, so the Information byte distinguishes the offsets. -/
def createIrpOpenIf : IRP :=
  { MajorFunction := 0, MinorFunction := 0, FileId := 0,
    input := [0, 0, 0, 0, 0, 0, 0, 0, 0, 0, 0, 0, 0, 0, 0, 0,
              5, 0, 0, 0, 3, 0, 0, 0, 0, 0, 0, 0, 0, 0, 0, 0] }

/-- Claim C4, witness: a well-formed Create with SharedAccess 5 and
CreateDisposition FILE_OPEN_IF on a successful host open; the response's
Information byte is FILE_OPENED, read from the CreateDisposition field at
byte offset 20. -/
theorem create_success_information_byte_witness :
    (drive_process_irp_create [] 7 createIrpOpenIf okOracle 0).output =
      putU32 7 ++ putU8 (spec_create_information
        (readU32 (createIrpOpenIf.input.drop 20))) :=
  create_success_information_byte [] 7 createIrpOpenIf okOracle 0 (by decide)
    (by decide) rfl rfl (Or.inl (by decide))

/-! ## Claim C5: the response of a Create whose host open fails -/

/-- A host on which drive_file_new fails with ERROR_FILE_NOT_FOUND as the
last error. -/
def openFailOracle : HostOracle :=
  { okOracle with fileNewOk := false, lastError := ERROR_FILE_NOT_FOUND }

/-- Claim C5: for every Create IRP with well-formed input whose open of
the underlying file fails, the response carries FileId 0 and Information
0, io_status is the NT status obtained by mapping the host error code, and
the completion callback is still invoked. -/
theorem create_failure_response (files : FileTable) (seq : Nat) (irp : IRP)
    (o : HostOracle) (io : Nat)
    (hlen : 32 ≤ irp.input.length)
    (hpath : readU32 (irp.input.drop 28) ≤ (irp.input.drop 32).length)
    (hnew : o.fileNewOk = false) :
    (drive_process_irp_create files seq irp o io).output =
        putU32 0 ++ putU8 0 ∧
    (drive_process_irp_create files seq irp o io).ioStatus =
        drive_map_windows_err o.lastError ∧
    (drive_process_irp_create files seq irp o io).completeCalls = 1 ∧
    (drive_process_irp_create files seq irp o io).discardCalls = 0 := by
  simp only [drive_process_irp_create]
  split_ifs with h1 h2
  · omega
  · omega
  · simp

/-- Claim C5, witness: a well-formed all-zero Create against a host whose
open fails with ERROR_FILE_NOT_FOUND. -/
theorem create_failure_response_witness :
    (drive_process_irp_create [] 7 createIrp32 openFailOracle 0).output =
        putU32 0 ++ putU8 0 ∧
    (drive_process_irp_create [] 7 createIrp32 openFailOracle 0).ioStatus =
        drive_map_windows_err openFailOracle.lastError ∧
    (drive_process_irp_create [] 7 createIrp32 openFailOracle 0).completeCalls = 1 ∧
    (drive_process_irp_create [] 7 createIrp32 openFailOracle 0).discardCalls = 0 :=
  create_failure_response [] 7 createIrp32 openFailOracle 0 (by decide)
    (by decide) rfl

/-! ## Claim C6: the Close response -/

/-- Claim C6: every Close IRP that is completed carries a response body of
exactly 5 zero padding bytes, whatever the outcome, and a Close whose
FileId is not in the open-file table sets io_status to STATUS_UNSUCCESSFUL
while still writing those 5 zero bytes. -/
theorem close_response_padding_and_unknown_id (files : FileTable)
    (irp : IRP) (o : HostOracle) (io : Nat) :
    (drive_process_irp_close files irp o io).output = List.replicate 5 0 ∧
    (drive_process_irp_close files irp o io).completeCalls = 1 ∧
    (drive_get_file_by_id files irp.FileId = none →
      (drive_process_irp_close files irp o io).ioStatus =
        STATUS_UNSUCCESSFUL) := by
  unfold drive_process_irp_close
  cases hL : drive_get_file_by_id files irp.FileId <;> simp [hL]

/-! ## Claim C7: Close removes the table entry, a later Read fails -/

theorem drive_get_none_of_not_mem : ∀ (files : FileTable) (id : Nat),
    id ∉ files.map Prod.fst → drive_get_file_by_id files id = none := by
  intro files id
  induction files with
  | nil => intro h; rfl
  | cons hd tl ih =>
      intro h
      simp only [List.map_cons, List.mem_cons, not_or] at h
      have hb : (hd.1 == id) = false := by
        simp only [beq_eq_false_iff_ne]
        exact fun hh => h.1 hh.symm
      unfold drive_get_file_by_id
      rw [List.find?_cons]
      simp only [hb]
      exact ih h.2

theorem drive_get_tableTake_none : ∀ (files : FileTable) (id : Nat),
    (files.map Prod.fst).Nodup →
    drive_get_file_by_id (tableTake files id) id = none := by
  intro files id
  induction files with
  | nil => intro hnd; rfl
  | cons hd tl ih =>
      intro hnd
      simp only [List.map_cons, List.nodup_cons] at hnd
      by_cases hk : hd.1 = id
      · have hb : (hd.1 == id) = true := by
          simp only [beq_iff_eq]; exact hk
        unfold tableTake
        rw [List.eraseP_cons]
        simp only [hb, cond_true]
        exact drive_get_none_of_not_mem tl id (hk ▸ hnd.1)
      · have hb : (hd.1 == id) = false := by
          simp only [beq_eq_false_iff_ne]; exact hk
        unfold tableTake
        rw [List.eraseP_cons]
        simp only [hb, cond_false]
        unfold drive_get_file_by_id
        rw [List.find?_cons]
        simp only [hb]
        exact ih hnd.2

/-- Claim C7: after a Close IRP has been processed for a FileId -- whether
or not freeing the host handle succeeded -- the entry is gone from the
table, and a subsequent well-formed Read IRP with the same FileId finds no
file and responds with io_status STATUS_UNSUCCESSFUL and a zero
ActualLength field. -/
theorem close_then_read_unsuccessful (files : FileTable) (irpC irpR : IRP)
    (oC oR : HostOracle)
    (hnd : (files.map Prod.fst).Nodup)
    (hid : irpR.FileId = irpC.FileId)
    (hlen : 12 ≤ irpR.input.length)
    (hcap : oR.ensureOk = true) :
    drive_get_file_by_id
        (drive_process_irp_close files irpC oC STATUS_SUCCESS).files
        irpR.FileId = none ∧
    (drive_process_irp_read
        (drive_process_irp_close files irpC oC STATUS_SUCCESS).files
        irpR oR STATUS_SUCCESS).ioStatus = STATUS_UNSUCCESSFUL ∧
    (drive_process_irp_read
        (drive_process_irp_close files irpC oC STATUS_SUCCESS).files
        irpR oR STATUS_SUCCESS).output = putU32 0 ∧
    (drive_process_irp_read
        (drive_process_irp_close files irpC oC STATUS_SUCCESS).files
        irpR oR STATUS_SUCCESS).completeCalls = 1 := by
  have hgone : drive_get_file_by_id
      (drive_process_irp_close files irpC oC STATUS_SUCCESS).files
      irpR.FileId = none := by
    unfold drive_process_irp_close
    cases hL : drive_get_file_by_id files irpC.FileId
    · simpa [hid] using hL
    · simp only [hid]
      exact drive_get_tableTake_none files irpC.FileId hnd
  refine ⟨hgone, ?_⟩
  simp only [drive_process_irp_read]
  rw [if_neg (by omega), hgone, hcap]
  simp

/-- Claim C7, witness: close FileId 1 on a one-entry table (the free
failing), then read FileId 1 with a well-formed zero request. -/
theorem close_then_read_unsuccessful_witness :
    drive_get_file_by_id
        (drive_process_irp_close [(1, DRIVE_FILE.mk 1)]
          (IRP.mk 2 0 1 []) (HostOracle.mk true true true true true [] false
            true true [] true true [] 6 0 0 8 512 70000 100000 1 2)
          STATUS_SUCCESS).files 1 = none ∧
    (drive_process_irp_read
        (drive_process_irp_close [(1, DRIVE_FILE.mk 1)]
          (IRP.mk 2 0 1 []) (HostOracle.mk true true true true true [] false
            true true [] true true [] 6 0 0 8 512 70000 100000 1 2)
          STATUS_SUCCESS).files
        (IRP.mk 3 0 1 (List.replicate 12 0)) okOracle
        STATUS_SUCCESS).ioStatus = STATUS_UNSUCCESSFUL ∧
    (drive_process_irp_read
        (drive_process_irp_close [(1, DRIVE_FILE.mk 1)]
          (IRP.mk 2 0 1 []) (HostOracle.mk true true true true true [] false
            true true [] true true [] 6 0 0 8 512 70000 100000 1 2)
          STATUS_SUCCESS).files
        (IRP.mk 3 0 1 (List.replicate 12 0)) okOracle
        STATUS_SUCCESS).output = putU32 0 ∧
    (drive_process_irp_read
        (drive_process_irp_close [(1, DRIVE_FILE.mk 1)]
          (IRP.mk 2 0 1 []) (HostOracle.mk true true true true true [] false
            true true [] true true [] 6 0 0 8 512 70000 100000 1 2)
          STATUS_SUCCESS).files
        (IRP.mk 3 0 1 (List.replicate 12 0)) okOracle
        STATUS_SUCCESS).completeCalls = 1 :=
  close_then_read_unsuccessful [(1, DRIVE_FILE.mk 1)]
    (IRP.mk 2 0 1 []) (IRP.mk 3 0 1 (List.replicate 12 0))
    (HostOracle.mk true true true true true [] false true true [] true true
      [] 6 0 0 8 512 70000 100000 1 2) okOracle
    (by decide) rfl (by decide) rfl

/-! ## Claim C8: LOCK_CONTROL and unrecognised major functions -/

/-- The major function codes the dispatcher's routing table recognises. -/
def handledMajors : List Nat :=
  [IRP_MJ_CREATE, IRP_MJ_CLOSE, IRP_MJ_READ, IRP_MJ_WRITE,
   IRP_MJ_QUERY_INFORMATION, IRP_MJ_SET_INFORMATION,
   IRP_MJ_QUERY_VOLUME_INFORMATION, IRP_MJ_LOCK_CONTROL,
   IRP_MJ_DIRECTORY_CONTROL, IRP_MJ_DEVICE_CONTROL]

/-- A LOCK_CONTROL IRP with a 4-byte (all zero) input. -/
def lockIrp : IRP :=
  { MajorFunction := 0x11, MinorFunction := 0, FileId := 0,
    input := [0, 0, 0, 0] }

/-- Claim C8, counterexample to the claim as stated: a LOCK_CONTROL IRP is
completed, but its response body is not empty -- the handler writes a
4-byte zero Length field (Stream_Write_UINT32(irp->output, 0)), unlike the
default branch which writes nothing. -/
theorem lock_control_body_not_empty :
    (drive_process_irp [] 1 lockIrp okOracle).completeCalls = 1 ∧
    ¬ ((drive_process_irp [] 1 lockIrp okOracle).output = []) := by
  decide

/-- Claim C8, amended: an IRP with major function IRP_MJ_LOCK_CONTROL whose
input holds at least the 4-byte FsInformationClass field is completed with
io_status STATUS_SUCCESS and a response body of exactly one 32-bit Length
field equal to 0 (not an empty body); an IRP whose major function matches
no entry of the routing table is completed with io_status
STATUS_NOT_SUPPORTED and an empty response body. -/
theorem lock_control_and_unknown_major_responses (files : FileTable)
    (seq : Nat) (irp : IRP) (o : HostOracle) :
    ((irp.MajorFunction = IRP_MJ_LOCK_CONTROL ∧ 4 ≤ irp.input.length) →
      ((drive_process_irp files seq irp o).ioStatus = STATUS_SUCCESS ∧
       (drive_process_irp files seq irp o).output = putU32 0 ∧
       (drive_process_irp files seq irp o).completeCalls = 1 ∧
       (drive_process_irp files seq irp o).discardCalls = 0)) ∧
    (irp.MajorFunction ∉ handledMajors →
      ((drive_process_irp files seq irp o).ioStatus = STATUS_NOT_SUPPORTED ∧
       (drive_process_irp files seq irp o).output = [] ∧
       (drive_process_irp files seq irp o).completeCalls = 1 ∧
       (drive_process_irp files seq irp o).discardCalls = 0)) := by
  constructor
  · rintro ⟨hmj, hlen⟩
    have m1 : ¬ irp.MajorFunction = IRP_MJ_CREATE := by rw [hmj]; decide
    have m2 : ¬ irp.MajorFunction = IRP_MJ_CLOSE := by rw [hmj]; decide
    have m3 : ¬ irp.MajorFunction = IRP_MJ_READ := by rw [hmj]; decide
    have m4 : ¬ irp.MajorFunction = IRP_MJ_WRITE := by rw [hmj]; decide
    have m5 : ¬ irp.MajorFunction = IRP_MJ_QUERY_INFORMATION := by
      rw [hmj]; decide
    have m6 : ¬ irp.MajorFunction = IRP_MJ_SET_INFORMATION := by
      rw [hmj]; decide
    have m7 : ¬ irp.MajorFunction = IRP_MJ_QUERY_VOLUME_INFORMATION := by
      rw [hmj]; decide
    have hl : ¬ (irp.input.length < 4) := by omega
    simp only [drive_process_irp, if_neg m1, if_neg m2, if_neg m3,
      if_neg m4, if_neg m5, if_neg m6, if_neg m7, if_pos hmj,
      drive_process_irp_silent_ignore, if_neg hl]
    simp
  · intro hmj
    simp only [handledMajors, List.mem_cons, List.not_mem_nil, or_false,
      not_or] at hmj
    obtain ⟨n1, n2, n3, n4, n5, n6, n7, n8, n9, n10⟩ := hmj
    simp only [drive_process_irp, if_neg n1, if_neg n2, if_neg n3,
      if_neg n4, if_neg n5, if_neg n6, if_neg n7, if_neg n8, if_neg n9,
      if_neg n10]
    simp

/-! ## Claim C9: QueryVolumeInformation with an unsupported class -/

/-- The five FsInformationClass values the volume handler supports, in the
order its switch tests them. -/
def supportedVolumeClasses : List Nat :=
  [FileFsVolumeInformation, FileFsSizeInformation,
   FileFsAttributeInformation, FileFsFullSizeInformation,
   FileFsDeviceInformation]

/-- Claim C9: for every QueryVolumeInformation IRP whose
FsInformationClass is none of the five supported classes, the handler
writes a body of exactly one 32-bit Length field equal to 0, sets
io_status STATUS_UNSUCCESSFUL, and completes the IRP. -/
theorem query_volume_unknown_class_response (files : FileTable) (irp : IRP)
    (o : HostOracle) (io : Nat)
    (hlen : 4 ≤ irp.input.length)
    (hcls : readU32 irp.input ∉ supportedVolumeClasses) :
    (drive_process_irp_query_volume_information files irp o io).output =
        putU32 0 ∧
    (drive_process_irp_query_volume_information files irp o io).ioStatus =
        STATUS_UNSUCCESSFUL ∧
    (drive_process_irp_query_volume_information files irp o io).completeCalls
        = 1 ∧
    (drive_process_irp_query_volume_information files irp o io).discardCalls
        = 0 := by
  simp only [supportedVolumeClasses, List.mem_cons, List.not_mem_nil,
    or_false, not_or] at hcls
  obtain ⟨n1, n2, n3, n4, n5⟩ := hcls
  simp only [drive_process_irp_query_volume_information]
  rw [if_neg (by omega), if_neg n1, if_neg n2, if_neg n3, if_neg n4,
    if_neg n5]
  simp

/-- A QueryVolumeInformation IRP with FsInformationClass 0xDEAD. -/
def volUnknownIrp : IRP :=
  { MajorFunction := 0x0A, MinorFunction := 0, FileId := 0,
    input := [173, 222, 0, 0] }

/-- Claim C9, witness: FsInformationClass 0xDEAD yields the zero Length
body and STATUS_UNSUCCESSFUL. -/
theorem query_volume_unknown_class_response_witness :
    (drive_process_irp_query_volume_information [] volUnknownIrp okOracle
        STATUS_SUCCESS).output = putU32 0 ∧
    (drive_process_irp_query_volume_information [] volUnknownIrp okOracle
        STATUS_SUCCESS).ioStatus = STATUS_UNSUCCESSFUL ∧
    (drive_process_irp_query_volume_information [] volUnknownIrp okOracle
        STATUS_SUCCESS).completeCalls = 1 ∧
    (drive_process_irp_query_volume_information [] volUnknownIrp okOracle
        STATUS_SUCCESS).discardCalls = 0 :=
  query_volume_unknown_class_response [] volUnknownIrp okOracle
    STATUS_SUCCESS (by decide) (by decide)

/-! ## Claim C10: zero-length Reads and the Read error bodies -/

/-- A host whose seek fails with ERROR_ACCESS_DENIED as the last error. -/
def seekFailOracle : HostOracle :=
  { okOracle with seekOk := false, lastError := ERROR_ACCESS_DENIED }

/-- A Read IRP for FileId 1 requesting Length 0 at Offset 0. -/
def readZeroIrp : IRP :=
  { MajorFunction := 0x03, MinorFunction := 0, FileId := 1,
    input := List.replicate 12 0 }

/-- Claim C10, counterexample to the claim as stated: a Read IRP with
well-formed input, requested Length 0 and a FileId present in the table
does not always leave io_status STATUS_SUCCESS -- the handler still seeks
to the requested Offset, and when that seek fails the status becomes the
mapped host error. -/
theorem read_zero_length_failed_seek_status :
    readU32 readZeroIrp.input = 0 ∧
    (drive_get_file_by_id [(1, DRIVE_FILE.mk 1)] readZeroIrp.FileId).isSome
        = true ∧
    ¬ ((drive_process_irp_read [(1, DRIVE_FILE.mk 1)] readZeroIrp
        seekFailOracle STATUS_SUCCESS).ioStatus = STATUS_SUCCESS) := by
  decide

/-- Claim C10, amended: for every Read IRP with well-formed input whose
requested Length is 0, whose FileId is present in the table and whose seek
to the requested Offset succeeds, the handler never invokes the host file
read, writes a body of exactly one zero 32-bit ActualLength field, leaves
io_status STATUS_SUCCESS and completes the IRP; and every error branch of
Read (unknown FileId, failed seek, failed read) likewise produces a body
of exactly one zero 32-bit length field on a completed IRP. -/
theorem read_zero_length_and_error_bodies (files : FileTable) (irp : IRP)
    (o : HostOracle)
    (hlen : 12 ≤ irp.input.length) (hcap : o.ensureOk = true) :
    ((readU32 irp.input = 0 ∧
      (drive_get_file_by_id files irp.FileId).isSome = true ∧
      o.seekOk = true) →
      ((drive_process_irp_read files irp o STATUS_SUCCESS).readCalled
          = false ∧
       (drive_process_irp_read files irp o STATUS_SUCCESS).output
          = putU32 0 ∧
       (drive_process_irp_read files irp o STATUS_SUCCESS).ioStatus
          = STATUS_SUCCESS ∧
       (drive_process_irp_read files irp o STATUS_SUCCESS).completeCalls
          = 1)) ∧
    ((drive_get_file_by_id files irp.FileId = none ∨ o.seekOk = false ∨
      o.readOk = false) →
      ((drive_process_irp_read files irp o STATUS_SUCCESS).output
          = putU32 0 ∧
       (drive_process_irp_read files irp o STATUS_SUCCESS).completeCalls
          = 1)) := by
  constructor
  · rintro ⟨hz, hsome, hseek⟩
    cases hf : drive_get_file_by_id files irp.FileId
    · rw [hf] at hsome; simp at hsome
    · simp only [drive_process_irp_read]
      rw [if_neg (by omega)]
      simp [hf, hseek, hcap, hz]
  · intro h
    simp only [drive_process_irp_read]
    rw [if_neg (by omega)]
    cases hf : drive_get_file_by_id files irp.FileId
    · simp [hcap]
    · rw [hf] at h
      simp only [hcap]
      split_ifs <;> simp_all

/-- Claim C10, witness: a zero-length Read of the present FileId 1 on a
fully successful host. -/
theorem read_zero_length_and_error_bodies_witness :
    (((readU32 readZeroIrp.input = 0 ∧
      (drive_get_file_by_id [(1, DRIVE_FILE.mk 1)] readZeroIrp.FileId).isSome
          = true ∧
      okOracle.seekOk = true) →
      ((drive_process_irp_read [(1, DRIVE_FILE.mk 1)] readZeroIrp okOracle
          STATUS_SUCCESS).readCalled = false ∧
       (drive_process_irp_read [(1, DRIVE_FILE.mk 1)] readZeroIrp okOracle
          STATUS_SUCCESS).output = putU32 0 ∧
       (drive_process_irp_read [(1, DRIVE_FILE.mk 1)] readZeroIrp okOracle
          STATUS_SUCCESS).ioStatus = STATUS_SUCCESS ∧
       (drive_process_irp_read [(1, DRIVE_FILE.mk 1)] readZeroIrp okOracle
          STATUS_SUCCESS).completeCalls = 1)) ∧
    ((drive_get_file_by_id [(1, DRIVE_FILE.mk 1)] readZeroIrp.FileId = none ∨
      okOracle.seekOk = false ∨ okOracle.readOk = false) →
      ((drive_process_irp_read [(1, DRIVE_FILE.mk 1)] readZeroIrp okOracle
          STATUS_SUCCESS).output = putU32 0 ∧
       (drive_process_irp_read [(1, DRIVE_FILE.mk 1)] readZeroIrp okOracle
          STATUS_SUCCESS).completeCalls = 1))) :=
  read_zero_length_and_error_bodies [(1, DRIVE_FILE.mk 1)] readZeroIrp
    okOracle (by decide) rfl

end Drive
